import Mathlib

set_option maxRecDepth 100000

/-!
Formal model of the CrowdSense event-rate anomaly detection and
cooldown-gated verification pipeline, together with its background task
scheduler.  Each definition is a shallow embedding of a function of the
repository:

* `AnomalyDetector` (src/core/anomaly_detection.py): `updateHistory`,
  `zScoreOf`, `isAnomalyP` model `update_history`, `_calculate_z_score`
  and `_is_anomaly`.  Python floats are modelled as exact rationals,
  `np.std` (population standard deviation) as the real square root of the
  rational variance.
* the v2 pipeline (src/ai_crowdsense_v2.py): `fetchTweets` models the
  `fetch_tweets` tick as a pure transition on `SysState`; the external
  collaborators (Twitter HTTP response, Groq responses, `json.loads`,
  NewsAPI, Twilio) are inputs of the tick, carried by `TickInput`.
* `BackgroundScheduler` (src/core/scheduler.py): `updateTaskStats` models
  the per-task statistics update of `_run_task`; `runLoop` models the
  scheduler loop (`schedule.run_pending()` executed once a second in a
  single thread, each due job run synchronously to completion, the
  `schedule` library recomputing `next_run` from the completion time).

Timestamps are integers (seconds); durations from the configuration of
ai_crowdsense_v2.py: WINDOW = 15 min, ALERT_COOLDOWN = 30 min,
API_RETRY_DELAY = 900 s, THRESHOLD = 2.
-/

namespace CrowdSense

/-- Python's `list[-n:]` / `deque(maxlen=n)` tail: the last `n` elements. -/
def takeLast (n : ℕ) (l : List α) : List α := l.drop (l.length - n)

/-! ## Anomaly detector (src/core/anomaly_detection.py) -/

/-- `np.mean` of a list of rationals (0 on the empty list, as 0/0 = 0). -/
def npMean (l : List ℚ) : ℚ := l.sum / l.length

/-- `np.var` with ddof = 0 (population variance), as used by `np.std`. -/
def npVariance (l : List ℚ) : ℚ :=
  (l.map (fun x => (x - npMean l) ^ 2)).sum / l.length

/-- `np.std` = square root of the population variance. -/
noncomputable def npStd (l : List ℚ) : ℝ := Real.sqrt ((npVariance l : ℚ) : ℝ)

/-- State of `AnomalyDetector` for one keyword: `keyword_history` (a deque
of maxlen `window_size`) and `keyword_ewma` (absent before the first
observation). -/
structure DetState where
  hist : List ℚ
  ewma : Option ℚ
deriving DecidableEq

/-- `AnomalyDetector.update_history` state effect: initialize the EWMA to
`count` for a new keyword, append `count` to the history deque (evicting
the oldest beyond `window_size`), then blend the EWMA:
`ewma = alpha * count + (1 - alpha) * ewma_prev`. -/
def updateHistory (windowSize : ℕ) (alpha : ℚ) (s : DetState) (c : ℚ) : DetState :=
  let e0 := match s.ewma with | none => c | some e => e
  { hist := takeLast windowSize (s.hist ++ [c]),
    ewma := some (alpha * c + (1 - alpha) * e0) }

/-- `AnomalyDetector._calculate_z_score`, computed from the history *after*
the current count has been appended (`hist`), exactly as in
`update_history`.  The code's guard `std == 0` is the decidable test
`npVariance = 0` (equivalent, since `npStd = Real.sqrt npVariance` and the
variance is nonnegative; see `npStd_eq_zero_iff`). -/
noncomputable def zScoreOf (hist : List ℚ) (c : ℚ) : ℝ :=
  if hist.length < 2 then 0
  else
    let hd := if 1 < hist.length then hist.dropLast else hist
    if hd.length = 0 then 0
    else if npVariance hd = 0 then 0
    else ((c - npMean hd : ℚ) : ℝ) / npStd hd

/-- `AnomalyDetector._is_anomaly`: `z_anomaly = |z| > z_threshold`,
`ewma_anomaly = count > ewma * 1.5 and ewma > 0`, verdict
`z_anomaly and ewma_anomaly`. -/
def isAnomalyP (zThreshold : ℚ) (z : ℝ) (count ewma : ℚ) : Prop :=
  let zAnomaly := |z| > (zThreshold : ℝ)
  let ewmaAnomaly := count > ewma * 1.5 ∧ ewma > 0
  zAnomaly ∧ ewmaAnomaly

/-- The anomaly verdict returned by `update_history`: `_is_anomaly` applied
to the z-score of the post-append history and the post-blend EWMA,
where `s` is the detector state after `updateHistory`. -/
noncomputable def detAnomaly (zThreshold : ℚ) (s : DetState) (c : ℚ) : Prop :=
  isAnomalyP zThreshold (zScoreOf s.hist c) c (s.ewma.getD c)

/-! ## Rate window tracker (src/ai_crowdsense_v2.py) -/

/-- `WINDOW = timedelta(minutes=15)`, in seconds. -/
def WINDOW : ℤ := 900

/-- `THRESHOLD = 2`. -/
def THRESHOLD : ℕ := 2

/-- `ALERT_COOLDOWN = timedelta(minutes=30)`, in seconds. -/
def ALERT_COOLDOWN : ℤ := 1800

/-- `API_RETRY_DELAY = 900`. -/
def API_RETRY_DELAY : ℤ := 900

/-- `DISASTER_KEYWORDS`. -/
def DISASTER_KEYWORDS : List String :=
  ["earthquake", "flood", "cyclone", "tsunami", "landslide", "fire", "storm"]

/-- The eviction loop of `fetch_tweets`:
`while tweet_times[kw] and current_time - tweet_times[kw][0] > WINDOW:
tweet_times[kw].popleft()`. -/
def evictOld (now : ℤ) : List ℤ → List ℤ
  | [] => []
  | t :: ts => if now - t > WINDOW then evictOld now ts else t :: ts

/-! ## Stage 1 / stage 3 AI response handling (src/ai_crowdsense_v2.py) -/

/-- Python's substring test `needle in hay`, on lists of characters. -/
def subList [BEq α] : List α → List α → Bool
  | n, [] => n.isEmpty
  | n, a :: rest => n.isPrefixOf (a :: rest) || subList n rest

/-- Python's `needle in hay` on strings. -/
def strContains (needle hay : String) : Bool := subList needle.data hay.data

/-- Python's `str.lower()` (ASCII case folding, as in the keyword check). -/
def toLowerStr (s : String) : String := String.mk (s.data.map Char.toLower)

/-- Python's `str.strip()`: leading and trailing whitespace removed. -/
def pyStrip (s : String) : String :=
  String.mk (((s.data.dropWhile Char.isWhitespace).reverse.dropWhile Char.isWhitespace).reverse)

/-- The guard `"{" in response_cleaned and "}" in response_cleaned`. -/
def hasBraces (s : String) : Bool := s.data.contains '{' && s.data.contains '}'

/-- `response_cleaned[response_cleaned.find("{") : response_cleaned.rfind("}") + 1]`
(the slice is empty when the last `}` precedes the first `{`, as in Python). -/
def extractJson (s : String) : String :=
  let l := s.data
  let start := l.indexOf '{'
  let stop := l.length - 1 - l.reverse.indexOf '}'
  String.mk ((l.drop start).take (stop + 1 - start))

/-- The fields read off the parsed stage-1 JSON object
(`analysis.get("location")`, `analysis.get("search_queries", [])`). -/
structure AiAnalysis where
  location : Option String
  searchQueries : List String
deriving DecidableEq

/-- The three fallback queries synthesized on a stage-1 JSON parse error. -/
def fallbackQueries (kw : String) : List String :=
  [kw ++ " news today", kw ++ " disaster alert", "breaking " ++ kw ++ " emergency"]

/-- `analyze_tweets_with_ai(tweets_data, keyword)`.  `aiResponse` is the raw
text returned by `call_groq_ai` (`none` on call failure, and the empty
string is falsy, as in Python); `parse` is the external `json.loads`
(returning `none` exactly when `json.JSONDecodeError` is raised, with the
`.get` defaults folded in).  Returns `(search_queries, location)`. -/
def analyzeTweets (parse : String → Option AiAnalysis) (tweets : List String)
    (kw : String) (aiResponse : Option String) : List String × Option String :=
  if tweets.isEmpty then ([], none)
  else
    match aiResponse with
    | none => ([], none)
    | some r =>
      if r = "" then ([], none)
      else
        let cleaned := pyStrip r
        if hasBraces cleaned then
          match parse (extractJson cleaned) with
          | some a =>
            if a.searchQueries.isEmpty then ([], none) else (a.searchQueries, a.location)
          | none =>
            if strContains kw (toLowerStr r) then (fallbackQueries kw, none) else ([], none)
        else ([], none)

/-- The fields read off the parsed stage-3 JSON object (with the `.get`
defaults `False`, `"Disaster detected"`, `[]` folded into `parse`). -/
structure AiValidation where
  isValidated : Bool
  summary : String
  newsUrls : List String
deriving DecidableEq

/-- `validate_news_with_ai(tweets_data, news_articles, keyword, location)`;
returns `(is_validated, summary, news_urls)`.  Articles are modelled by
their titles (only emptiness and count are observable here). -/
def validateNews (parse : String → Option AiValidation) (articles : List String)
    (aiResponse : Option String) : Bool × String × List String :=
  if articles.isEmpty then (false, "No news found for validation", [])
  else
    match aiResponse with
    | none => (false, "AI unavailable", [])
    | some r =>
      if r = "" then (false, "AI unavailable", [])
      else
        let cleaned := pyStrip r
        if hasBraces cleaned then
          match parse (extractJson cleaned) with
          | some v => (v.isValidated, v.summary, v.newsUrls)
          | none => (false, "AI validation failed", [])
        else (false, "No JSON in AI response", [])

/-- `fetch_news_with_queries`: calls the news API for the first 3 queries
and aggregates all returned articles; `newsResp i` is the article list
the external API returns for the i-th query (empty on any error). -/
def fetchNews (newsResp : ℕ → List String) (queries : List String) : List String :=
  ((List.range (queries.take 3).length).map newsResp).flatten

/-! ## The `fetch_tweets` tick (src/ai_crowdsense_v2.py) -/

/-- The Twitter recent-search HTTP outcome: status 200 with the parsed
tweet texts (`[]` when the body has no `"data"` key), 429, 401, any
other status, or a raised network exception. -/
inductive TwStatus where
  | ok (tweets : List String)
  | rateLimited
  | authFailed
  | otherError
  | netError
deriving DecidableEq

/-- Everything the outside world feeds one `fetch_tweets` tick: the clock,
the Twitter response, the two Groq raw responses with the `json.loads`
oracles, the news API, and the Twilio outcome. -/
structure TickInput where
  now : ℤ
  resp : TwStatus
  parse1 : String → Option AiAnalysis
  aiResp1 : Option String
  newsResp : ℕ → List String
  parse2 : String → Option AiValidation
  aiResp2 : Option String
  smsOk : Bool

/-- The module-level mutable state of ai_crowdsense_v2.py:
`api_retry_time`, `current_keyword_index`, `tweet_times`,
`last_alert_time`. -/
structure SysState where
  apiRetryTime : Option ℤ
  kwIndex : ℕ
  tweetTimes : String → List ℤ
  lastAlertTime : String → Option ℤ

/-- Observable outcome of one tick: whether the Twitter request was
attempted, whether `send_sms_alert` was invoked, and which keyword the
tick processed (`none` on a cooldown short-circuit). -/
structure TickResult where
  networkCalled : Bool
  notifierCalled : Bool
  processedKw : Option String
deriving DecidableEq

/-- Pointwise update of a keyword-indexed map. -/
def updFn (f : String → α) (k : String) (v : α) : String → α :=
  fun x => if x = k then v else f x

/-- `if api_retry_time and datetime.now(timezone.utc) < api_retry_time`. -/
def cooldownActive (s : SysState) (now : ℤ) : Bool :=
  match s.apiRetryTime with
  | none => false
  | some t => decide (now < t)

/-- The alert-gate guard
`last_alert_time[kw] is None or current_time - last_alert_time[kw] > ALERT_COOLDOWN`. -/
def gateOpen (la : Option ℤ) (now : ℤ) : Bool :=
  match la with
  | none => true
  | some t => decide (now - t > ALERT_COOLDOWN)

/-- `fetch_tweets()` as a pure transition.  Faithful control flow:
cooldown short-circuit before anything else; keyword selected at the
current rotation index and the index advanced before the request; 429
schedules the retry deadline; 401 / other statuses / network errors
return; on 200 the new tweet timestamps are appended, the window evicted,
and — if the count reaches `THRESHOLD` and the gate is open and this
tick's tweet list is nonempty — `last_alert_time[kw]` is set *before* the
AI pipeline runs; the window is cleared whenever validation succeeds,
whether or not the SMS dispatch succeeds. -/
def fetchTweets (inp : TickInput) (s : SysState) : SysState × TickResult :=
  if cooldownActive s inp.now then (s, ⟨false, false, none⟩)
  else
    let kw := DISASTER_KEYWORDS.getD s.kwIndex ""
    let s1 : SysState := { s with kwIndex := (s.kwIndex + 1) % DISASTER_KEYWORDS.length }
    match inp.resp with
    | .rateLimited =>
      ({ s1 with apiRetryTime := some (inp.now + API_RETRY_DELAY) }, ⟨true, false, some kw⟩)
    | .authFailed => (s1, ⟨true, false, some kw⟩)
    | .otherError => (s1, ⟨true, false, some kw⟩)
    | .netError => (s1, ⟨true, false, some kw⟩)
    | .ok tweets =>
      let appended := s1.tweetTimes kw ++ List.replicate tweets.length inp.now
      let s2 : SysState := { s1 with tweetTimes := updFn s1.tweetTimes kw appended }
      let w := evictOld inp.now (s2.tweetTimes kw)
      let s3 : SysState := { s2 with tweetTimes := updFn s2.tweetTimes kw w }
      if THRESHOLD ≤ w.length then
        if gateOpen (s3.lastAlertTime kw) inp.now then
          if tweets.isEmpty then (s3, ⟨true, false, some kw⟩)
          else
            let s4 : SysState := { s3 with lastAlertTime := updFn s3.lastAlertTime kw (some inp.now) }
            let qr := analyzeTweets inp.parse1 tweets kw inp.aiResp1
            if qr.1.isEmpty then (s4, ⟨true, false, some kw⟩)
            else
              let articles := fetchNews inp.newsResp qr.1
              let vr := validateNews inp.parse2 articles inp.aiResp2
              if vr.1 then
                ({ s4 with tweetTimes := updFn s4.tweetTimes kw [] }, ⟨true, true, some kw⟩)
              else (s4, ⟨true, false, some kw⟩)
        else (s3, ⟨true, false, some kw⟩)
      else (s3, ⟨true, false, some kw⟩)

/-- A run of consecutive ticks, recording the keyword each tick processed. -/
def runTicks (inps : List TickInput) (s : SysState) : SysState × List (Option String) :=
  match inps with
  | [] => (s, [])
  | i :: is =>
    let p := fetchTweets i s
    let r := runTicks is p.1
    (r.1, p.2.processedKw :: r.2)

/-- No tick of the run is short-circuited by the ingestion cooldown. -/
def noSkipRun (inps : List TickInput) (s : SysState) : Bool :=
  match inps with
  | [] => true
  | i :: is => !cooldownActive s i.now && noSkipRun is (fetchTweets i s).1

/-! ## Scheduler task statistics (src/core/scheduler.py, `_run_task`) -/

/-- One execution of a task function: its start time, its duration, and
whether the function returned or raised (with the exception text). -/
structure ExecOutcome where
  startTime : ℤ
  duration : ℤ
  succeeded : Bool
  errMsg : String
deriving DecidableEq

/-- One entry of `task_stats[name]`: start time, execution time, success
flag, and the error string (present exactly on failure). -/
structure RunRecord where
  startTime : ℤ
  executionTime : ℤ
  success : Bool
  error : Option String
deriving DecidableEq

/-- The dict appended by `_run_task` for one execution. -/
def recordOf (o : ExecOutcome) : RunRecord :=
  if o.succeeded then ⟨o.startTime, o.duration, true, none⟩
  else ⟨o.startTime, o.duration, false, some o.errMsg⟩

/-- The `task_stats[name]` update of `_run_task`: on success the record is
appended and the list trimmed to its last 100 entries
(`task_stats[name] = task_stats[name][-100:]`); on failure (the `except`
branch) the record is appended with no trim. -/
def updateTaskStats (recent : List RunRecord) (o : ExecOutcome) : List RunRecord :=
  if o.succeeded then takeLast 100 (recent ++ [recordOf o])
  else recent ++ [recordOf o]

/-- `task_stats[name]` after a sequence of executions, starting empty. -/
def runStats (outcomes : List ExecOutcome) : List RunRecord :=
  outcomes.foldl updateTaskStats []

/-! ## Scheduler loop (src/core/scheduler.py, `start`, with the `schedule`
library's job semantics) -/

/-- One `schedule` job: unique task name, period, and `next_run` deadline.
After a run finishes at time `e`, the library sets `next_run = e + interval`. -/
structure Job where
  taskName : String
  interval : ℕ
  nextRun : ℕ
deriving DecidableEq

/-- One completed execution in the scheduler trace. -/
structure RunEvent where
  taskName : String
  startT : ℕ
  endT : ℕ
deriving DecidableEq

/-- Scheduler-loop state: the clock and the registered jobs. -/
structure SchedState where
  now : ℕ
  jobs : List Job

/-- Run every job of the due list to completion, one after the other, in
the single scheduler thread; `d` gives each task's duration this tick.
Returns the clock after the batch, the jobs with `next_run` recomputed
from each completion time, and the run events. -/
def runDue (d : String → ℕ) : ℕ → List Job → ℕ × List Job × List RunEvent
  | now, [] => (now, [], [])
  | now, j :: js =>
    let e := now + d j.taskName
    let r := runDue d e js
    (r.1, { j with nextRun := e + j.interval } :: r.2.1, ⟨j.taskName, now, e⟩ :: r.2.2)

/-- One iteration of the scheduler loop: `schedule.run_pending()` (the due
set is computed first, then each due job runs synchronously) followed by
`time.sleep(1)`. -/
def runPending (d : String → ℕ) (s : SchedState) : SchedState × List RunEvent :=
  let due := s.jobs.filter (fun j => decide (j.nextRun ≤ s.now))
  let rest := s.jobs.filter (fun j => decide (s.now < j.nextRun))
  let r := runDue d s.now due
  ({ now := r.1 + 1, jobs := r.2.1 ++ rest }, r.2.2)

/-- The scheduler loop over a sequence of iterations (one duration oracle
per iteration), concatenating the run events in order. -/
def runLoop : List (String → ℕ) → SchedState → SchedState × List RunEvent
  | [], s => (s, [])
  | d :: ds, s =>
    let p := runPending d s
    let r := runLoop ds p.1
    (r.1, p.2 ++ r.2)

/-! ## Concrete fixtures used by witnesses and counterexamples -/

/-- Fresh module state: no retry deadline, index 0, all windows empty, no
alert ever sent. -/
def emptySys : SysState := ⟨none, 0, fun _ => [], fun _ => none⟩

/-- Module state inside an ingestion cooldown (retry deadline 2000). -/
def coolSys : SysState := ⟨some 2000, 0, fun _ => [], fun _ => none⟩

/-- A `json.loads` oracle for stage-1 responses holding no valid JSON. -/
def parse1None : String → Option AiAnalysis := fun _ => none

/-- A tick whose stage-1 AI response has no JSON object, so query
generation aborts with zero queries. -/
def c1AbortInput : TickInput :=
  ⟨1000, .ok ["t1", "t2"], parse1None, some "no json text earthquake",
   fun _ => [], fun _ => none, none, false⟩

/-- A tick whose AI stages parse, validate, and whose SMS dispatch fails
(`smsOk = false`). -/
def c1AlertInput : TickInput :=
  ⟨1000, .ok ["t1", "t2"], fun _ => some ⟨none, ["q1"]⟩, some "{j}",
   fun _ => ["art"], fun _ => some ⟨true, "confirmed", []⟩, some "{v}", false⟩

/-- A tick with the given Twitter HTTP outcome and no usable AI responses. -/
def plainInput (st : TwStatus) : TickInput :=
  ⟨1000, st, parse1None, none, fun _ => [], fun _ => none, none, false⟩

/-- A tick whose Twitter request raises a network exception. -/
def idleInput : TickInput := plainInput TwStatus.netError

/-- A failed task execution (the function raised "boom" after 1 second). -/
def failOutcome : ExecOutcome := ⟨0, 1, false, "boom"⟩

/-- A successful task execution. -/
def okOutcome : ExecOutcome := ⟨0, 1, true, ""⟩

/-- One registered job, interval 2 s, first due immediately. -/
def demoSched : SchedState := ⟨0, [⟨"fetch_tweets", 2, 0⟩]⟩

/-- Every task takes 5 s this tick — longer than `demoSched`'s interval. -/
def demoDur : String → ℕ := fun _ => 5

/-! ## Helper lemmas -/

theorem npVariance_nonneg (l : List ℚ) : 0 ≤ npVariance l := by
  unfold npVariance
  apply div_nonneg _ (by positivity)
  apply List.sum_nonneg
  intro x hx
  rcases List.mem_map.mp hx with ⟨y, _, rfl⟩
  positivity

theorem npStd_nonneg (l : List ℚ) : 0 ≤ npStd l := Real.sqrt_nonneg _

theorem npStd_eq_zero_iff (l : List ℚ) : npStd l = 0 ↔ npVariance l = 0 := by
  unfold npStd
  rw [Real.sqrt_eq_zero']
  constructor
  · intro h
    have h2 : (0 : ℝ) ≤ ((npVariance l : ℚ) : ℝ) := by exact_mod_cast npVariance_nonneg l
    have : ((npVariance l : ℚ) : ℝ) = 0 := le_antisymm h h2
    exact_mod_cast this
  · intro h
    rw [h]
    simp

theorem npVariance_singleton (x : ℚ) : npVariance [x] = 0 := by
  simp [npVariance, npMean]

/-- Core z-score characterisation, for an arbitrary post-append history. -/
theorem zScoreOf_formula (h : List ℚ) (c : ℚ) :
    zScoreOf h c = ((c - npMean h.dropLast : ℚ) : ℝ) / npStd h.dropLast
    ∧ ((h.dropLast.length < 2 ∨ npStd h.dropLast = 0) → zScoreOf h c = 0) := by
  by_cases h1 : h.length < 2
  · have hd : h.dropLast = [] := by
      match h, h1 with
      | [], _ => rfl
      | [a], _ => rfl
    have hz : zScoreOf h c = 0 := by simp [zScoreOf, h1]
    refine ⟨?_, fun _ => hz⟩
    rw [hz, hd]
    have : npStd [] = 0 := by
      rw [npStd_eq_zero_iff]
      simp [npVariance, npMean]
    rw [this, div_zero]
  · have h2 : 2 ≤ h.length := Nat.le_of_not_lt h1
    have h1' : 1 < h.length := h2
    have hdlen : h.dropLast.length = h.length - 1 := List.length_dropLast h
    have hne : ¬ h.dropLast.length = 0 := by rw [hdlen]; omega
    by_cases hv : npVariance h.dropLast = 0
    · have hz : zScoreOf h c = 0 := by
        simp only [zScoreOf]
        rw [if_neg h1, if_pos h1', if_neg hne, if_pos hv]
      have hs : npStd h.dropLast = 0 := (npStd_eq_zero_iff _).mpr hv
      refine ⟨?_, fun _ => hz⟩
      rw [hz, hs, div_zero]
    · have hz : zScoreOf h c = ((c - npMean h.dropLast : ℚ) : ℝ) / npStd h.dropLast := by
        simp only [zScoreOf]
        rw [if_neg h1, if_pos h1', if_neg hne, if_neg hv]
      refine ⟨hz, ?_⟩
      rintro (hlt | hstd)
      · have : h.dropLast.length = 1 := by omega
        rcases List.length_eq_one.mp this with ⟨x, hx⟩
        rw [hx] at hv
        exact absurd (npVariance_singleton x) hv
      · exact absurd ((npStd_eq_zero_iff _).mp hstd) hv

/-! ## Claim theorems -/

/-- C6: for every keyword history and new count, the z-score returned by
`update_history` equals `(count - mean(history excluding the current
count)) / std(history excluding the current count)` (with the Lean
division-by-zero convention making the formula degenerate to 0), and it
is 0 whenever there are fewer than 2 historical points or the standard
deviation of the historical points is 0. -/
theorem c6_zscore_formula (ws : ℕ) (alpha : ℚ) (s : DetState) (c : ℚ) :
    zScoreOf (updateHistory ws alpha s c).hist c =
      ((c - npMean (updateHistory ws alpha s c).hist.dropLast : ℚ) : ℝ) /
        npStd ((updateHistory ws alpha s c).hist.dropLast)
    ∧ (((updateHistory ws alpha s c).hist.dropLast.length < 2 ∨
         npStd ((updateHistory ws alpha s c).hist.dropLast) = 0) →
        zScoreOf (updateHistory ws alpha s c).hist c = 0) :=
  zScoreOf_formula (updateHistory ws alpha s c).hist c

/-- C6 witness: a fresh detector observing its first count returns z = 0
(0 historical points). -/
theorem c6_witness : zScoreOf (updateHistory 10 (0.3 : ℚ) ⟨[], none⟩ 5).hist 5 = 0 :=
  (c6_zscore_formula 10 (0.3 : ℚ) ⟨[], none⟩ 5).2 (Or.inl (by decide))

/-- C4: the `_is_anomaly` verdict holds iff all three of `|z| > z_threshold`,
`count > ewma * 1.5` and `ewma > 0` hold simultaneously, and falsifying
any single conjunct falsifies the verdict. -/
theorem c4_is_anomaly_iff (zThr : ℚ) (z : ℝ) (count ewma : ℚ) :
    (isAnomalyP zThr z count ewma ↔
      (|z| > (zThr : ℝ) ∧ count > ewma * 1.5 ∧ ewma > 0))
    ∧ (¬ |z| > (zThr : ℝ) → ¬ isAnomalyP zThr z count ewma)
    ∧ (¬ count > ewma * 1.5 → ¬ isAnomalyP zThr z count ewma)
    ∧ (¬ ewma > 0 → ¬ isAnomalyP zThr z count ewma) := by
  unfold isAnomalyP
  tauto

/-- C4 witness: a concrete verdict, and a concrete rejection when
`ewma > 0` fails. -/
theorem c4_witness : isAnomalyP 2.5 3 10 5 ∧ ¬ isAnomalyP 2.5 3 10 0 := by
  constructor
  · refine (c4_is_anomaly_iff 2.5 3 10 5).1.mpr ⟨?_, by norm_num, by norm_num⟩
    rw [show |(3 : ℝ)| = 3 from abs_of_pos (by norm_num)]
    norm_num
  · exact (c4_is_anomaly_iff 2.5 3 10 0).2.2.2 (by norm_num)

/-- C5: a fresh Z-score/EWMA detector with alpha = 0.3 and z_threshold = 2.5
fed 2, 3, 1, 4, 2, 3 and then 15 reports an anomaly on the final
observation. -/
theorem c5_reference_scenario :
    detAnomaly 2.5
      (List.foldl (updateHistory 15 (0.3 : ℚ)) ⟨[], none⟩ [2, 3, 1, 4, 2, 3, 15]) 15 := by
  have hfold :
      List.foldl (updateHistory 15 (0.3 : ℚ)) ⟨[], none⟩ [2, 3, 1, 4, 2, 3, 15] =
        (⟨[2, 3, 1, 4, 2, 3, 15], some (6294191 / 1000000)⟩ : DetState) := by
    simp only [List.foldl, updateHistory, takeLast]
    norm_num
  rw [hfold]
  unfold detAnomaly
  have hdrop : ([2, 3, 1, 4, 2, 3, 15] : List ℚ).dropLast = [2, 3, 1, 4, 2, 3] := rfl
  have hmean : npMean [2, 3, 1, 4, 2, 3] = 5 / 2 := by
    norm_num [npMean]
  have hvar : npVariance [2, 3, 1, 4, 2, 3] = 11 / 12 := by
    norm_num [npVariance, npMean]
  have hz : zScoreOf [2, 3, 1, 4, 2, 3, 15] 15 =
      ((15 - npMean [2, 3, 1, 4, 2, 3] : ℚ) : ℝ) / npStd [2, 3, 1, 4, 2, 3] := by
    have h := (zScoreOf_formula ([2, 3, 1, 4, 2, 3, 15] : List ℚ) 15).1
    rw [hdrop] at h
    exact h
  have hsqrtpos : 0 < npStd [2, 3, 1, 4, 2, 3] := by
    unfold npStd
    apply Real.sqrt_pos.mpr
    rw [hvar]
    norm_num
  have hsqrtlt : npStd [2, 3, 1, 4, 2, 3] < 5 := by
    unfold npStd
    rw [Real.sqrt_lt' (by norm_num : (0 : ℝ) < 5)]
    rw [hvar]
    norm_num
  constructor
  · rw [hz, hmean]
    have hzpos : (0 : ℝ) < ((15 - 5 / 2 : ℚ) : ℝ) / npStd [2, 3, 1, 4, 2, 3] := by
      apply div_pos _ hsqrtpos
      norm_num
    rw [abs_of_pos hzpos, gt_iff_lt, lt_div_iff₀ hsqrtpos]
    push_cast
    nlinarith
  · constructor
    · norm_num
    · norm_num

/-- C7 counterexample: the claim fails for a recorded timestamp in the
future of `now` (here `[1]` with `now = 0`, a non-decreasing sequence):
eviction keeps it, so the window count is 1, yet no timestamp lies
within `[now - WINDOW, now]`. -/
theorem c7_counterexample :
    List.Pairwise (· ≤ ·) [(1 : ℤ)]
    ∧ (evictOld 0 [(1 : ℤ)]).length = 1
    ∧ (([(1 : ℤ)].filter (fun t => decide (0 - WINDOW ≤ t ∧ t ≤ 0))).length = 0) := by
  decide

/-- C7 amended: for every non-decreasing sequence of recorded timestamps
*all of which are at most `now`*, after front eviction the window count
equals the number of timestamps within `[now - WINDOW, now]`. -/
theorem c7_amended (now : ℤ) (ts : List ℤ)
    (hsort : List.Pairwise (· ≤ ·) ts) (hle : ∀ t ∈ ts, t ≤ now) :
    (evictOld now ts).length =
      (ts.filter (fun t => decide (now - WINDOW ≤ t ∧ t ≤ now))).length := by
  induction ts with
  | nil => simp [evictOld]
  | cons a l ih =>
    rcases List.pairwise_cons.mp hsort with ⟨ha, hl⟩
    by_cases hev : now - a > WINDOW
    · have hout : ¬ (now - WINDOW ≤ a ∧ a ≤ now) := by
        rintro ⟨h1, _⟩
        omega
      have heq : evictOld now (a :: l) = evictOld now l := by
        simp [evictOld, hev]
      rw [heq, List.filter_cons, if_neg (by simpa using hout)]
      exact ih hl (fun t ht => hle t (List.mem_cons_of_mem _ ht))
    · have hallin : ∀ t ∈ a :: l, now - WINDOW ≤ t ∧ t ≤ now := by
        intro t ht
        rcases List.mem_cons.mp ht with rfl | htl
        · exact ⟨by omega, hle _ (List.mem_cons_self _ _)⟩
        · exact ⟨by have := ha t htl; omega, hle _ ht⟩
      have hfil : (a :: l).filter (fun t => decide (now - WINDOW ≤ t ∧ t ≤ now)) = a :: l :=
        List.filter_eq_self.mpr (fun t ht => by simpa using hallin t ht)
      have heq : evictOld now (a :: l) = a :: l := by
        simp [evictOld, hev]
      rw [heq, hfil]

/-- C7 witness: one stale and two fresh timestamps at `now = 2000`. -/
theorem c7_witness :
    (evictOld 2000 [1000, 1500, 1999]).length =
      (([1000, 1500, 1999] : List ℤ).filter
        (fun t => decide (2000 - WINDOW ≤ t ∧ t ≤ 2000))).length :=
  c7_amended 2000 [1000, 1500, 1999] (by decide) (by decide)

/-- C2: after a failed execution the run-history list is appended without
the 100-entry trim (the trim sits only in the success branch of
`_run_task`, under the comment "Keep only last 100 runs"), so 100
successes followed by one failure leave 101 records — the claimed ≤100
bound holds only in the success branch, as the second conjunct shows. -/
theorem c2_failure_branch_overflow :
    (runStats (List.replicate 100 okOutcome ++ [failOutcome])).length = 101
    ∧ (runStats (List.replicate 101 okOutcome)).length = 100 := by
  decide

/-- C8: the ingestion wrapper schedules `retry_at = now + API_RETRY_DELAY`
exactly on a 429; while `now < retry_at` every attempt short-circuits to
an empty result with no network call and no state change; a 401 and any
other non-success status return empty for the tick with `retry_at`, the
windows and the gates untouched (only the rotation index advances). -/
theorem c8_rate_limit_controller (inp : TickInput) (s : SysState) :
    ((cooldownActive s inp.now = true) ↔ (∃ t, s.apiRetryTime = some t ∧ inp.now < t))
    ∧ (cooldownActive s inp.now = true →
        fetchTweets inp s = (s, ⟨false, false, none⟩))
    ∧ (cooldownActive s inp.now = false → inp.resp = TwStatus.rateLimited →
        (fetchTweets inp s).1.apiRetryTime = some (inp.now + API_RETRY_DELAY)
        ∧ (fetchTweets inp s).1.tweetTimes = s.tweetTimes
        ∧ (fetchTweets inp s).1.lastAlertTime = s.lastAlertTime)
    ∧ (cooldownActive s inp.now = false → inp.resp = TwStatus.authFailed →
        (fetchTweets inp s).1.apiRetryTime = s.apiRetryTime
        ∧ (fetchTweets inp s).1.tweetTimes = s.tweetTimes
        ∧ (fetchTweets inp s).1.lastAlertTime = s.lastAlertTime
        ∧ (fetchTweets inp s).2.networkCalled = true)
    ∧ (cooldownActive s inp.now = false → inp.resp = TwStatus.otherError →
        (fetchTweets inp s).1.apiRetryTime = s.apiRetryTime
        ∧ (fetchTweets inp s).1.tweetTimes = s.tweetTimes
        ∧ (fetchTweets inp s).1.lastAlertTime = s.lastAlertTime
        ∧ (fetchTweets inp s).2.networkCalled = true) := by
  refine ⟨?_, ?_, ?_, ?_, ?_⟩
  · unfold cooldownActive
    cases h : s.apiRetryTime with
    | none => simp
    | some t => simp
  · intro h
    simp [fetchTweets, h]
  · intro h hr
    simp [fetchTweets, h, hr]
  · intro h hr
    simp [fetchTweets, h, hr]
  · intro h hr
    simp [fetchTweets, h, hr]

/-- C8 witness: a 429 at `now = 1000` schedules retry at 1900; a tick
before a pending deadline changes nothing and makes no network call; a
401 leaves `retry_at` unset. -/
theorem c8_witness :
    (fetchTweets (plainInput TwStatus.rateLimited) emptySys).1.apiRetryTime = some 1900
    ∧ fetchTweets (plainInput (TwStatus.ok [])) coolSys = (coolSys, ⟨false, false, none⟩)
    ∧ (fetchTweets (plainInput TwStatus.authFailed) emptySys).1.apiRetryTime = none := by
  refine ⟨?_, ?_, ?_⟩
  · exact ((c8_rate_limit_controller (plainInput TwStatus.rateLimited) emptySys).2.2.1
      (by decide) rfl).1
  · exact (c8_rate_limit_controller (plainInput (TwStatus.ok [])) coolSys).2.1 (by decide)
  · exact ((c8_rate_limit_controller (plainInput TwStatus.authFailed) emptySys).2.2.2.1
      (by decide) rfl).1

/-- C1 counterexample: a run that aborts at stage 1 with zero search
queries (the stage-1 response holds no JSON object) never calls the
notifier, but it does *not* leave the gate untouched: `last_alert_time`
flips from `none` to the tick time, because the code sets it before the
AI pipeline runs. -/
theorem c1_counterexample :
    (analyzeTweets c1AbortInput.parse1 ["t1", "t2"] "earthquake" c1AbortInput.aiResp1).1 = []
    ∧ (fetchTweets c1AbortInput emptySys).2.notifierCalled = false
    ∧ emptySys.lastAlertTime "earthquake" = none
    ∧ (fetchTweets c1AbortInput emptySys).1.lastAlertTime "earthquake" = some 1000 := by
  decide

/-- C1 amended: on a tick that reaches the pipeline entry (no ingestion
cooldown, HTTP 200, a nonempty tweet batch, post-eviction count at the
threshold, gate open), `last_alert_time` is set to the tick time
unconditionally — before stage 1 and regardless of the pipeline outcome;
the notifier is called iff stage 1 yields queries and validation
succeeds; and the window is cleared exactly in that same case, whether or
not the SMS dispatch succeeds (`inp.smsOk` is arbitrary here). -/
theorem c1_amended (inp : TickInput) (s : SysState) (tweets : List String)
    (hc : cooldownActive s inp.now = false)
    (hresp : inp.resp = TwStatus.ok tweets)
    (htw : tweets ≠ []) :
    THRESHOLD ≤ (evictOld inp.now
        (s.tweetTimes (DISASTER_KEYWORDS.getD s.kwIndex "") ++
          List.replicate tweets.length inp.now)).length →
    gateOpen (s.lastAlertTime (DISASTER_KEYWORDS.getD s.kwIndex "")) inp.now = true →
    ((fetchTweets inp s).1.lastAlertTime (DISASTER_KEYWORDS.getD s.kwIndex "") = some inp.now
    ∧ (fetchTweets inp s).2.notifierCalled =
        (!(analyzeTweets inp.parse1 tweets (DISASTER_KEYWORDS.getD s.kwIndex "") inp.aiResp1).1.isEmpty
          && (validateNews inp.parse2
                (fetchNews inp.newsResp
                  (analyzeTweets inp.parse1 tweets (DISASTER_KEYWORDS.getD s.kwIndex "") inp.aiResp1).1)
                inp.aiResp2).1)
    ∧ (fetchTweets inp s).1.tweetTimes (DISASTER_KEYWORDS.getD s.kwIndex "") =
        (if (!(analyzeTweets inp.parse1 tweets (DISASTER_KEYWORDS.getD s.kwIndex "") inp.aiResp1).1.isEmpty
              && (validateNews inp.parse2
                    (fetchNews inp.newsResp
                      (analyzeTweets inp.parse1 tweets (DISASTER_KEYWORDS.getD s.kwIndex "") inp.aiResp1).1)
                    inp.aiResp2).1) = true
         then []
         else evictOld inp.now
            (s.tweetTimes (DISASTER_KEYWORDS.getD s.kwIndex "") ++
              List.replicate tweets.length inp.now))) := by
  intro hthresh hgate
  have htw' : tweets.isEmpty = false := by
    cases tweets with
    | nil => exact absurd rfl htw
    | cons a l => rfl
  simp only [fetchTweets, hc, hresp, Bool.false_eq_true, if_false, htw', updFn]
  simp only [if_pos hthresh, hgate, if_true, Bool.false_eq_true, if_false]
  set kw := DISASTER_KEYWORDS.getD s.kwIndex "" with hkw
  by_cases hq : (analyzeTweets inp.parse1 tweets kw inp.aiResp1).1.isEmpty
  · simp [hq, updFn]
  · have hq' : (analyzeTweets inp.parse1 tweets kw inp.aiResp1).1.isEmpty = false :=
      Bool.not_eq_true _ |>.mp hq
    by_cases hv : (validateNews inp.parse2
        (fetchNews inp.newsResp (analyzeTweets inp.parse1 tweets kw inp.aiResp1).1) inp.aiResp2).1
    · simp [hq', hv, updFn]
    · simp [hq', hv, updFn]

/-- C1 witness: a validated run whose SMS dispatch fails (`smsOk = false`)
still sets the gate and clears the window. -/
theorem c1_witness :
    (fetchTweets c1AlertInput emptySys).1.lastAlertTime "earthquake" = some 1000
    ∧ (fetchTweets c1AlertInput emptySys).2.notifierCalled = true
    ∧ (fetchTweets c1AlertInput emptySys).1.tweetTimes "earthquake" = [] := by
  have h := c1_amended c1AlertInput emptySys ["t1", "t2"] (by decide) rfl (by decide)
    (by decide) (by decide)
  refine ⟨h.1, h.2.1.trans (by decide), (h.2.2).trans (by decide)⟩

/-- Helper: every non-short-circuited tick processes exactly the keyword
at the current rotation index, advances the index by one modulo the
keyword count (whatever the HTTP outcome), and touches no other
keyword's window or gate entry. -/
theorem fetchTweets_tick (inp : TickInput) (s : SysState)
    (hc : cooldownActive s inp.now = false) :
    (fetchTweets inp s).2.processedKw = some (DISASTER_KEYWORDS.getD s.kwIndex "")
    ∧ (fetchTweets inp s).1.kwIndex = (s.kwIndex + 1) % DISASTER_KEYWORDS.length
    ∧ ∀ kw2, kw2 ≠ DISASTER_KEYWORDS.getD s.kwIndex "" →
        (fetchTweets inp s).1.tweetTimes kw2 = s.tweetTimes kw2
        ∧ (fetchTweets inp s).1.lastAlertTime kw2 = s.lastAlertTime kw2 := by
  cases hresp : inp.resp with
  | ok tweets =>
    refine ⟨?_, ?_, ?_⟩
    · simp only [fetchTweets, hc, hresp, Bool.false_eq_true, if_false]
      split_ifs <;> rfl
    · simp only [fetchTweets, hc, hresp, Bool.false_eq_true, if_false]
      split_ifs <;> rfl
    · intro kw2 hkw2
      simp only [List.getD, List.get?_eq_getElem?] at hkw2
      simp only [fetchTweets, hc, hresp, Bool.false_eq_true, if_false]
      split_ifs <;> simp [updFn, List.getD, List.get?_eq_getElem?, hkw2]
  | rateLimited => simp [fetchTweets, hc, hresp]
  | authFailed => simp [fetchTweets, hc, hresp]
  | otherError => simp [fetchTweets, hc, hresp]
  | netError => simp [fetchTweets, hc, hresp]

/-- C10: over any run without cooldown short-circuits, tick `j` processes
exactly the keyword at index `(start + j) mod N`, so each keyword is
examined only on every Nth tick; and on any single non-skipped tick the
index advances by one modulo N (regardless of outcome) while every other
keyword's window and gate state is untouched. -/
theorem c10_rotation :
    (∀ (inps : List TickInput) (s : SysState),
       s.kwIndex < DISASTER_KEYWORDS.length →
       noSkipRun inps s = true →
       (runTicks inps s).2 =
         (List.range inps.length).map
           (fun j => DISASTER_KEYWORDS.get? ((s.kwIndex + j) % DISASTER_KEYWORDS.length)))
    ∧ (∀ (inp : TickInput) (s : SysState),
        cooldownActive s inp.now = false →
        (fetchTweets inp s).1.kwIndex = (s.kwIndex + 1) % DISASTER_KEYWORDS.length
        ∧ ∀ kw2, kw2 ≠ DISASTER_KEYWORDS.getD s.kwIndex "" →
            (fetchTweets inp s).1.tweetTimes kw2 = s.tweetTimes kw2
            ∧ (fetchTweets inp s).1.lastAlertTime kw2 = s.lastAlertTime kw2) := by
  have hlen : DISASTER_KEYWORDS.length = 7 := rfl
  constructor
  · intro inps
    induction inps with
    | nil =>
      intro s h7 hns
      simp [runTicks]
    | cons i is ih =>
      intro s h7 hns
      have hand := hns
      simp only [noSkipRun, Bool.and_eq_true, Bool.not_eq_true'] at hand
      obtain ⟨hc, hns2⟩ := hand
      have ht := fetchTweets_tick i s hc
      have h7' : (fetchTweets i s).1.kwIndex < DISASTER_KEYWORDS.length := by
        rw [ht.2.1, hlen]
        exact Nat.mod_lt _ (by norm_num)
      simp only [runTicks]
      rw [ih (fetchTweets i s).1 h7' hns2, ht.1]
      rw [List.length_cons, List.range_succ_eq_map, List.map_cons, List.map_map]
      congr 1
      · rw [hlen] at h7 ⊢
        rw [Nat.add_zero, Nat.mod_eq_of_lt h7]
        revert h7
        rw [hlen] at *
        generalize s.kwIndex = k
        intro h7
        interval_cases k <;> rfl
      · rw [ht.2.1]
        have hf : (fun j => DISASTER_KEYWORDS.get?
              (((s.kwIndex + 1) % DISASTER_KEYWORDS.length + j) % DISASTER_KEYWORDS.length)) =
            ((fun j => DISASTER_KEYWORDS.get? ((s.kwIndex + j) % DISASTER_KEYWORDS.length)) ∘
              Nat.succ) := by
          funext j
          simp only [Function.comp]
          congr 1
          rw [hlen]
          omega
        rw [hf]
  · intro inp s hc
    exact ⟨(fetchTweets_tick inp s hc).2.1, (fetchTweets_tick inp s hc).2.2⟩

/-- C10 witness: 8 consecutive ticks starting fresh walk the 7 keywords in
order and return to the first. -/
theorem c10_witness :
    (runTicks (List.replicate 8 idleInput) emptySys).2 =
      [some "earthquake", some "flood", some "cyclone", some "tsunami", some "landslide",
       some "fire", some "storm", some "earthquake"] := by
  have h := c10_rotation.1 (List.replicate 8 idleInput) emptySys (by decide) (by decide)
  rw [h]
  decide

/-- C3 counterexample: the keyword check of the fallback path lowercases
only the response, so for the keyword "Fire" — which the response
contains case-insensitively — a stage-1 parse failure returns zero
queries instead of the fallback queries. -/
theorem c3_counterexample :
    analyzeTweets parse1None ["x"] "Fire" (some "FIRE ALERT {zzz}") = ([], none)
    ∧ hasBraces (pyStrip "FIRE ALERT {zzz}") = true
    ∧ parse1None (extractJson (pyStrip "FIRE ALERT {zzz}")) = none
    ∧ strContains (toLowerStr "Fire") (toLowerStr "FIRE ALERT {zzz}") = true
    ∧ fallbackQueries "Fire" ≠ [] := by
  decide

/-- C3 amended: when the stripped response holds a JSON object that fails
to parse, stage 1 returns the 3 templated fallback queries exactly when
the *lowercased* response contains the keyword verbatim (case-insensitive
containment exactly when the keyword is all-lowercase, as every
configured keyword is), and zero queries otherwise; with no JSON object
present it returns zero queries and the run aborts. -/
theorem c3_amended (parse : String → Option AiAnalysis) (tweets : List String)
    (kw r : String) (htw : tweets ≠ []) (hr : r ≠ "") :
    (hasBraces (pyStrip r) = true → parse (extractJson (pyStrip r)) = none →
      analyzeTweets parse tweets kw (some r) =
        (if strContains kw (toLowerStr r) then (fallbackQueries kw, none) else ([], none)))
    ∧ (hasBraces (pyStrip r) = false → analyzeTweets parse tweets kw (some r) = ([], none)) := by
  have htw' : tweets.isEmpty = false := by
    cases tweets with
    | nil => exact absurd rfl htw
    | cons a l => rfl
  constructor
  · intro hb hp
    simp [analyzeTweets, htw', hr, hb, hp]
  · intro hb
    simp [analyzeTweets, htw', hr, hb]

/-- C3 witness: with the lowercase keyword "fire" the fallback fires on a
parse failure whose response contains FIRE, and a brace-free response
aborts with zero queries. -/
theorem c3_witness :
    analyzeTweets parse1None ["x"] "fire" (some "FIRE ALERT {zzz}") =
      (fallbackQueries "fire", none)
    ∧ analyzeTweets parse1None ["x"] "fire" (some "no braces fire text") = ([], none) := by
  constructor
  · have h := (c3_amended parse1None ["x"] "fire" "FIRE ALERT {zzz}"
      (by decide) (by decide)).1 (by decide) rfl
    rw [h]
    decide
  · exact (c3_amended parse1None ["x"] "fire" "no braces fire text"
      (by decide) (by decide)).2 (by decide)

/-- Helper: the clock never moves backwards across a due batch. -/
theorem runDue_le (d : String → ℕ) :
    ∀ (now : ℕ) (js : List Job), now ≤ (runDue d now js).1 := by
  intro now js
  induction js generalizing now with
  | nil => exact le_refl _
  | cons j js ih =>
    simp only [runDue]
    exact le_trans (Nat.le_add_right _ _) (ih (now + d j.taskName))

/-- Helper: every event of a due batch starts no earlier than the batch
start and ends no later than the batch end. -/
theorem runDue_event_bounds (d : String → ℕ) :
    ∀ (now : ℕ) (js : List Job), ∀ ev ∈ (runDue d now js).2.2,
      now ≤ ev.startT ∧ ev.startT ≤ ev.endT ∧ ev.endT ≤ (runDue d now js).1 := by
  intro now js
  induction js generalizing now with
  | nil => intro ev hev; simp [runDue] at hev
  | cons j js ih =>
    intro ev hev
    simp only [runDue, List.mem_cons] at hev
    rcases hev with rfl | hev
    · refine ⟨le_refl _, Nat.le_add_right _ _, ?_⟩
      simp only [runDue]
      exact runDue_le d _ js
    · have h := ih (now + d j.taskName) ev hev
      exact ⟨le_trans (Nat.le_add_right _ _) h.1, h.2.1, h.2.2⟩

/-- Helper: within one `run_pending` batch the runs are sequential. -/
theorem runDue_pairwise (d : String → ℕ) :
    ∀ (now : ℕ) (js : List Job),
      List.Pairwise (fun a b => a.endT ≤ b.startT) (runDue d now js).2.2 := by
  intro now js
  induction js generalizing now with
  | nil => simp [runDue]
  | cons j js ih =>
    simp only [runDue]
    refine List.Pairwise.cons ?_ (ih (now + d j.taskName))
    intro ev hev
    exact (runDue_event_bounds d (now + d j.taskName) js ev hev).1

/-- Helper: no event of a loop run starts before the loop's start time. -/
theorem runLoop_event_lb (ds : List (String → ℕ)) :
    ∀ (s : SchedState), ∀ ev ∈ (runLoop ds s).2, s.now ≤ ev.startT := by
  induction ds with
  | nil => intro s ev hev; simp [runLoop] at hev
  | cons d ds ih =>
    intro s ev hev
    simp only [runLoop, runPending, List.mem_append] at hev
    rcases hev with hev | hev
    · exact (runDue_event_bounds d s.now _ ev hev).1
    · have h := ih _ ev hev
      have h2 : s.now ≤ (runDue d s.now (s.jobs.filter (fun j => decide (j.nextRun ≤ s.now)))).1 + 1 :=
        le_trans (runDue_le d s.now _) (Nat.le_succ _)
      exact le_trans h2 h

/-- Helper: the whole scheduler-loop trace is sequential: every run ends
before the next one (of any task) starts. -/
theorem runLoop_pairwise (ds : List (String → ℕ)) :
    ∀ (s : SchedState),
      List.Pairwise (fun a b => a.endT ≤ b.startT) (runLoop ds s).2 := by
  induction ds with
  | nil => intro s; simp [runLoop]
  | cons d ds ih =>
    intro s
    simp only [runLoop, runPending]
    rw [List.pairwise_append]
    refine ⟨runDue_pairwise d s.now _, ih _, ?_⟩
    intro a ha b hb
    have hae := (runDue_event_bounds d s.now _ a ha).2.2
    have hbs := runLoop_event_lb ds _ b hb
    simp only at hbs
    exact le_trans hae (le_trans (Nat.le_succ _) hbs)

/-- C9: in every scheduler-loop trace, two runs of the same task never
overlap — each earlier run ends before the later one starts, however long
the earlier run took relative to the task's interval (the due check is
re-evaluated only after the run completes, so a slipped tick is skipped,
not queued). -/
theorem c9_no_concurrent_runs (ds : List (String → ℕ)) (s : SchedState) :
    List.Pairwise (fun a b => a.taskName = b.taskName → a.endT ≤ b.startT)
      ((runLoop ds s).2) :=
  (runLoop_pairwise ds s).imp (fun h => fun _ => h)

/-- C9 witness: a 2-second-interval task taking 5 seconds runs at 0–5 and
again only at 7–12: no overlap, the slipped ticks skipped. -/
theorem c9_witness :
    List.Pairwise (fun a b => a.taskName = b.taskName → a.endT ≤ b.startT)
      ((runLoop [demoDur, demoDur, demoDur] demoSched).2)
    ∧ (runLoop [demoDur, demoDur, demoDur] demoSched).2 =
        [⟨"fetch_tweets", 0, 5⟩, ⟨"fetch_tweets", 7, 12⟩] :=
  ⟨c9_no_concurrent_runs [demoDur, demoDur, demoDur] demoSched, by decide⟩

end CrowdSense
